import Mathlib

set_option maxHeartbeats 1000000

/- Shallow embedding of stargazers.flow.py: the GetStars, ShouldNotify and
NotificationMessage tasks and the flow wiring, with theorems checking the
specification of the repository against the code. -/

/-- A minimal JSON value type, for the GraphQL request body and response. -/
inductive Json where
  | null : Json
  | bool (b : Bool) : Json
  | num (n : Int) : Json
  | str (s : String) : Json
  | obj (fields : List (String × Json)) : Json

/-- Field lookup on a JSON object; `none` when the value is not an object or
the key is absent (a Python `KeyError` / `TypeError` on subscripting). -/
def Json.getField : Json → String → Option Json
  | .obj fields, key => fields.lookup key
  | _, _ => none

/-- Hour and minute of the run timestamp (the fields of `prefect.context["date"]`
that `ShouldNotify.run` reads). -/
structure DateTime where
  hour : Nat
  minute : Nat
  deriving DecidableEq

/-- The ambient prefect context: the run date plus other run metadata, modelled
here by the flow name. `ShouldNotify.run` reads `date` from this context rather
than taking the timestamp as a task input. -/
structure Context where
  date : DateTime
  flow_name : String
  deriving DecidableEq

/-- `ShouldNotify.run` (stargazers.flow.py lines 67-72): reads `now` from the
ambient prefect context and returns true on a 1000-star milestone, or when
the hour is 9 and the minute is between 0 and 5 inclusive. -/
def ShouldNotify.run (stars : Int) (ctx : Context) : Bool :=
  let now := ctx.date
  stars % 1000 == 0 || (now.hour == 9 && decide (0 ≤ now.minute) && decide (now.minute ≤ 5))

/-- A Slack text object: `type`, `text`, and the optional `emoji` flag. -/
structure TextObject where
  type : String
  text : String
  emoji : Option Bool
  deriving DecidableEq

/-- A Slack block: its `type` and its `text` object. -/
structure Block where
  type : String
  text : TextObject
  deriving DecidableEq

/-- The Slack message payload: a list of blocks. -/
structure Message where
  blocks : List Block
  deriving DecidableEq

/-- `NotificationMessage.run` (lines 75-95). The header text is a Python
f-string interpolating `repository` and `stars`; the section text is a plain
string literal (no `f` prefix in the source), so its braces and the names
between them are literal characters and the `owner` argument is unused. -/
def NotificationMessage.run (repository : String) (owner : String) (stars : Int) : Message :=
  { blocks := [
      { type := "header",
        text := { type := "plain_text",
                  text := "⭐⭐The " ++ repository ++ " repo has reached " ++ toString stars ++ "⭐⭐!",
                  emoji := some true } },
      { type := "section",
        text := { type := "mrkdwn",
                  text := "See all the new stargazers <https://github.com/\x7bowner\x7d/\x7brepository\x7d/stargazers|here>",
                  emoji := none } } ] }

/-- Number of character positions of `s` at which `pat` occurs as a substring. -/
def countOccurrences (s pat : String) : Nat :=
  ((List.range (s.data.length + 1)).filter (fun i => pat.data.isPrefixOf (s.data.drop i))).length

/-- `GetStars.__request_body` (lines 16-27): starts from `{"query": query}` and
adds the `variables` and `operationName` keys only when the corresponding
Python argument is truthy (not `None`, not empty). -/
def GetStars.requestBody (query : String) (vars : Option (List (String × Json)))
    (operation_name : Option String) : Json :=
  let fields := [("query", Json.str query)]
  let fields := match vars with
    | some v => if v.isEmpty then fields else fields ++ [("variables", Json.obj v)]
    | none => fields
  let fields := match operation_name with
    | some op => if op.isEmpty then fields else fields ++ [("operationName", Json.str op)]
    | none => fields
  Json.obj fields

/-- The fixed GraphQL query string of `GetStars.run` (lines 48-56), with the
Python triple-quoted whitespace preserved. -/
def stargazersQuery : String :=
  "\n        query Stargazers($repository: String!, $owner: String!) \x7b\n            repository(name: $repository, owner: $owner) \x7b\n                stargazers \x7b\n                    totalCount\n                \x7d\n            \x7d\n        \x7d\n        "

/-- An outbound HTTP POST request: url, JSON body, headers. -/
structure HttpRequest where
  url : String
  body : Json
  headers : List (String × String)

/-- The request assembled by `GetStars.run` / `GetStars.execute`
(lines 36-42 and 47-63) before the network call: the fixed endpoint, the body
built by `__request_body` from the fixed query and the
`{"repository": repository, "owner": owner}` variables, and the bearer
authorization header built from the `GITHUB_AUTH_TOKEN` secret. -/
def GetStars.request (repository owner token : String) : HttpRequest :=
  { url := "https://api.github.com/graphql",
    body := GetStars.requestBody stargazersQuery
      (some [("repository", Json.str repository), ("owner", Json.str owner)]) none,
    headers := [("Authorization", "bearer " ++ token)] }

/-- The failure modes of the fetch step, per the spec's error taxonomy:
`transportError` for the exception `raise_for_status` raises on a 4xx/5xx
status, `malformedResponseError` for the `KeyError` raised when the
`data.repository.stargazers.totalCount` path is absent from the body. -/
inductive FetchError where
  | transportError (status : Nat)
  | malformedResponseError
  deriving DecidableEq

/-- An HTTP response: status code and parsed JSON body. -/
structure HttpResponse where
  status : Nat
  body : Json

/-- The JSON path `data.repository.stargazers.totalCount` read by
`GetStars.run` (line 64). -/
def extractTotalCount (data : Json) : Option Json :=
  (((data.getField "data").bind (fun j => j.getField "repository")).bind
      (fun j => j.getField "stargazers")).bind (fun j => j.getField "totalCount")

/-- `GetStars` response handling: `result.raise_for_status()` (line 44) raises
for statuses in [400, 600), and otherwise line 64 subscripts down to
`totalCount`, a missing key raising a `KeyError`. -/
def GetStars.processResponse (result : HttpResponse) : Except FetchError Json :=
  if 400 ≤ result.status ∧ result.status < 600 then
    .error (.transportError result.status)
  else
    match extractTotalCount result.body with
    | some v => .ok v
    | none => .error .malformedResponseError

/-- Observable events of one flow run, in execution order. -/
inductive FlowEvent where
  | fetched (stars : Int)
  | decided (b : Bool)
  | formatted (message : Message)
  | sent (message : Message)
  deriving DecidableEq

/-- The flow wiring (lines 99-123): `GetStars` feeds `ShouldNotify`, and under
`case(should_notify, True)` the message is built and handed to the
`SlackTask`. The fetched count is a parameter here because the network call
is external; the trace lists the events of one invocation in order. -/
def runFlow (repository owner : String) (stars : Int) (ctx : Context) : List FlowEvent :=
  let should_notify := ShouldNotify.run stars ctx
  [FlowEvent.fetched stars, FlowEvent.decided should_notify] ++
    (if should_notify then
      let message := NotificationMessage.run repository owner stars
      [FlowEvent.formatted message, FlowEvent.sent message]
    else [])

/-- C1: for every star count divisible by 1000 and every context timestamp,
`ShouldNotify.run` returns true, regardless of the hour and minute. -/
theorem milestone_always_notifies (stars : Int) (ctx : Context)
    (h : stars % 1000 = 0) : ShouldNotify.run stars ctx = true := by
  simp [ShouldNotify.run, h]

/-- C1 witness: 2000 stars at 23:59 notifies. -/
theorem milestone_always_notifies_witness :
    (2000 : Int) % 1000 = 0 ∧ ShouldNotify.run 2000 ⟨⟨23, 59⟩, "Stargazers"⟩ = true :=
  ⟨by decide, milestone_always_notifies 2000 ⟨⟨23, 59⟩, "Stargazers"⟩ (by decide)⟩

/-- C2: a count that is not a multiple of 1000, at a time outside the window
(hour ≠ 9, or minute above 5), never notifies; in particular 1500 stars at
09:02 notifies and 1500 stars at 10:02 does not. -/
theorem off_window_never_notifies :
    (∀ (stars : Int) (ctx : Context), stars % 1000 ≠ 0 →
      (ctx.date.hour ≠ 9 ∨ 5 < ctx.date.minute) → ShouldNotify.run stars ctx = false) ∧
    ShouldNotify.run 1500 ⟨⟨9, 2⟩, "Stargazers"⟩ = true ∧
    ShouldNotify.run 1500 ⟨⟨10, 2⟩, "Stargazers"⟩ = false := by
  refine ⟨?_, by decide, by decide⟩
  intro stars ctx h1 h2
  have hb : (stars % 1000 == 0) = false := by simpa using h1
  rcases h2 with h | h
  · simp [ShouldNotify.run, hb, h]
  · simp [ShouldNotify.run, hb, Nat.not_le.mpr h]

/-- C2 witness: 1500 stars at 11:30 (hour ≠ 9) does not notify. -/
theorem off_window_never_notifies_witness :
    (1500 : Int) % 1000 ≠ 0 ∧ ((11 : Nat) ≠ 9 ∨ 5 < (30 : Nat)) ∧
      ShouldNotify.run 1500 ⟨⟨11, 30⟩, "Stargazers"⟩ = false :=
  ⟨by decide, by decide,
    off_window_never_notifies.1 1500 ⟨⟨11, 30⟩, "Stargazers"⟩ (by decide) (by decide)⟩

/-- C10: for a count that is not a multiple of 1000, the decision is true
exactly when the hour is 9 and the minute is at most 5; both boundaries
(minute 0 and minute 5) are inside the window. -/
theorem window_boundaries_inclusive :
    (∀ (stars : Int) (ctx : Context), stars % 1000 ≠ 0 →
      (ShouldNotify.run stars ctx = true ↔ ctx.date.hour = 9 ∧ ctx.date.minute ≤ 5)) ∧
    ShouldNotify.run 1500 ⟨⟨9, 0⟩, "Stargazers"⟩ = true ∧
    ShouldNotify.run 1500 ⟨⟨9, 5⟩, "Stargazers"⟩ = true := by
  refine ⟨?_, by decide, by decide⟩
  intro stars ctx h1
  have hb : (stars % 1000 == 0) = false := by simpa using h1
  simp [ShouldNotify.run, hb]

/-- C10 witness: 1500 stars at 09:03 notifies, via the window characterisation. -/
theorem window_boundaries_inclusive_witness :
    (1500 : Int) % 1000 ≠ 0 ∧ ShouldNotify.run 1500 ⟨⟨9, 3⟩, "Stargazers"⟩ = true :=
  ⟨by decide,
    (window_boundaries_inclusive.1 1500 ⟨⟨9, 3⟩, "Stargazers"⟩ (by decide)).mpr
      ⟨rfl, by decide⟩⟩

/-- C3: a 4xx/5xx status fails with a TransportError; a success status whose
body holds an integer at data.repository.stargazers.totalCount returns that
integer; a success status with the path absent fails with a
MalformedResponseError. -/
theorem fetch_response_handling :
    (∀ (status : Nat) (body : Json), 400 ≤ status → status < 600 →
      GetStars.processResponse ⟨status, body⟩ = .error (.transportError status)) ∧
    (∀ (status : Nat) (body : Json) (n : Int), status < 400 →
      extractTotalCount body = some (Json.num n) →
      GetStars.processResponse ⟨status, body⟩ = .ok (Json.num n)) ∧
    (∀ (status : Nat) (body : Json), status < 400 → extractTotalCount body = none →
      GetStars.processResponse ⟨status, body⟩ = .error .malformedResponseError) := by
  refine ⟨?_, ?_, ?_⟩
  · intro status body h1 h2
    simp [GetStars.processResponse, h1, h2]
  · intro status body n h1 h2
    simp [GetStars.processResponse, h2, Nat.not_le.mpr h1]
  · intro status body h1 h2
    simp [GetStars.processResponse, h2, Nat.not_le.mpr h1]

/-- The spec's mocked success body, with totalCount 42 at the expected path. -/
def mockedGoodBody : Json :=
  Json.obj [("data", Json.obj [("repository",
    Json.obj [("stargazers", Json.obj [("totalCount", Json.num 42)])])])]

/-- The spec's mocked malformed body: the stargazers key is missing. -/
def mockedBadBody : Json :=
  Json.obj [("data", Json.obj [("repository", Json.obj [("name", Json.str "prefect")])])]

/-- C3 witness: status 500 gives a TransportError; status 200 with totalCount
42 returns 42; status 200 with the stargazers key missing gives a
MalformedResponseError. -/
theorem fetch_response_handling_witness :
    ((400 : Nat) ≤ 500 ∧ (500 : Nat) < 600 ∧
      GetStars.processResponse ⟨500, mockedGoodBody⟩ = .error (.transportError 500)) ∧
    ((200 : Nat) < 400 ∧ extractTotalCount mockedGoodBody = some (Json.num 42) ∧
      GetStars.processResponse ⟨200, mockedGoodBody⟩ = .ok (Json.num 42)) ∧
    ((200 : Nat) < 400 ∧ extractTotalCount mockedBadBody = none ∧
      GetStars.processResponse ⟨200, mockedBadBody⟩ = .error .malformedResponseError) :=
  ⟨⟨by decide, by decide, fetch_response_handling.1 500 mockedGoodBody (by decide) (by decide)⟩,
   ⟨by decide, rfl, fetch_response_handling.2.1 200 mockedGoodBody 42 (by decide) rfl⟩,
   ⟨by decide, rfl, fetch_response_handling.2.2 200 mockedBadBody (by decide) rfl⟩⟩

/-- C8: for every repository, owner and token, the assembled request posts to
the fixed endpoint a JSON body of exactly the query and the two variables,
and its headers carry the bearer Authorization header. -/
theorem request_shape (repository owner token : String) :
    (GetStars.request repository owner token).url = "https://api.github.com/graphql" ∧
    (GetStars.request repository owner token).body =
      Json.obj [("query", Json.str stargazersQuery),
        ("variables", Json.obj [("repository", Json.str repository), ("owner", Json.str owner)])] ∧
    ("Authorization", "bearer " ++ token) ∈ (GetStars.request repository owner token).headers := by
  refine ⟨rfl, rfl, ?_⟩
  simp [GetStars.request]

/-- C5: for every repository, owner and count, the first block of the message
is a header block whose text object has type plain_text, emoji enabled, and
exactly the interpolated template text; on the spec's example the repository
name and the count each occur exactly once in that text. -/
theorem header_block_shape :
    (∀ (repository owner : String) (stars : Int),
      (NotificationMessage.run repository owner stars).blocks.head? = some
        { type := "header",
          text := { type := "plain_text",
                    text := "⭐⭐The " ++ repository ++ " repo has reached " ++
                      toString stars ++ "⭐⭐!",
                    emoji := some true } }) ∧
    (∃ b, (NotificationMessage.run "prefect" "PrefectHQ" 5000).blocks.head? = some b ∧
      countOccurrences b.text.text "prefect" = 1 ∧
      countOccurrences b.text.text "5000" = 1) := by
  refine ⟨fun repository owner stars => rfl, ⟨_, rfl, by decide, by decide⟩⟩

/-- C4 (code defect): the section block's link text is the literal placeholder
string — the Python source omits the f prefix on that string, so the supplied
owner value (and repository value) never appears in it, and the section block
is the same whatever the inputs are. -/
theorem section_link_not_interpolated :
    (∃ b, ((NotificationMessage.run "prefect" "PrefectHQ" 5000).blocks.drop 1).head? = some b ∧
      b.text.text =
        "See all the new stargazers <https://github.com/\x7bowner\x7d/\x7brepository\x7d/stargazers|here>" ∧
      countOccurrences b.text.text "PrefectHQ" = 0 ∧
      countOccurrences b.text.text "prefect" = 0) ∧
    (∀ (r o : String) (s : Int) (r' o' : String) (s' : Int),
      ((NotificationMessage.run r o s).blocks.drop 1).head? =
        ((NotificationMessage.run r' o' s').blocks.drop 1).head?) := by
  refine ⟨⟨_, rfl, rfl, by decide, by decide⟩, fun r o s r' o' s' => rfl⟩

/-- C9: message formatting is deterministic: identical inputs give identical
payloads. -/
theorem format_deterministic (r o : String) (s : Int) (r' o' : String) (s' : Int)
    (hr : r = r') (ho : o = o') (hs : s = s') :
    NotificationMessage.run r o s = NotificationMessage.run r' o' s' := by
  rw [hr, ho, hs]

/-- C9 witness: determinism at the spec's example input. -/
theorem format_deterministic_witness :
    "prefect" = "prefect" ∧
      NotificationMessage.run "prefect" "PrefectHQ" 5000 =
        NotificationMessage.run "prefect" "PrefectHQ" 5000 :=
  ⟨rfl, format_deterministic "prefect" "PrefectHQ" 5000 "prefect" "PrefectHQ" 5000 rfl rfl rfl⟩

/-- C7 counterexample: with the task's sole explicit input fixed at 1500
stars, the decision still differs between two ambient contexts, because
`ShouldNotify.run` reads the time from the ambient prefect context instead of
taking the timestamp as an input. -/
theorem decision_reads_ambient_clock :
    ShouldNotify.run 1500 ⟨⟨9, 2⟩, "Stargazers"⟩ ≠
      ShouldNotify.run 1500 ⟨⟨10, 2⟩, "Stargazers"⟩ := by
  decide

/-- C7 amended: the decision is a deterministic pure function of the star
count and the context date: two contexts agreeing on the date yield the same
decision, whatever their other fields. -/
theorem decision_deterministic_given_date (stars : Int) (ctx ctx' : Context)
    (h : ctx.date = ctx'.date) :
    ShouldNotify.run stars ctx = ShouldNotify.run stars ctx' := by
  simp [ShouldNotify.run, h]

/-- C7 witness: two contexts with the same date but different flow names give
the same decision. -/
theorem decision_deterministic_given_date_witness :
    (⟨⟨9, 2⟩, "Stargazers"⟩ : Context).date = (⟨⟨9, 2⟩, "Another Flow"⟩ : Context).date ∧
      ShouldNotify.run 1500 ⟨⟨9, 2⟩, "Stargazers"⟩ =
        ShouldNotify.run 1500 ⟨⟨9, 2⟩, "Another Flow"⟩ :=
  ⟨rfl, decision_deterministic_given_date 1500 ⟨⟨9, 2⟩, "Stargazers"⟩ ⟨⟨9, 2⟩, "Another Flow"⟩ rfl⟩

/-- C6: in every run the fetch event is first and the decision event second
(so the count is fetched before the decision is computed), and a formatted or
sent event occurs in the trace exactly when the decision is true. -/
theorem flow_order_and_gating (repository owner : String) (stars : Int) (ctx : Context) :
    (runFlow repository owner stars ctx)[0]? = some (FlowEvent.fetched stars) ∧
    (runFlow repository owner stars ctx)[1]? =
      some (FlowEvent.decided (ShouldNotify.run stars ctx)) ∧
    ((∃ m, FlowEvent.formatted m ∈ runFlow repository owner stars ctx) ↔
      ShouldNotify.run stars ctx = true) ∧
    ((∃ m, FlowEvent.sent m ∈ runFlow repository owner stars ctx) ↔
      ShouldNotify.run stars ctx = true) := by
  cases h : ShouldNotify.run stars ctx <;> simp [runFlow, h]
